import Mathlib

/-!
Verification of the haystack tutorial repository: the sample YAML pipeline
descriptor (`test/samples/pipeline/test_pipeline.yaml`), the YAML example and
the two Python node classes embedded in the Pipelines tutorial notebook.

The YAML documents are transcribed literally into a generic `Yaml` value
type; the two Python methods (`NodeTemplate.run`, `QueryClassifier.run`) are
shallowly embedded as Lean functions on association-list keyword arguments.
-/

/-- A YAML scalar or collection value, as it appears in the descriptors. -/
inductive Yaml where
  | s (v : String)
  | i (v : Int)
  | b (v : Bool)
  | null
  | seq (items : List Yaml)
  | map (entries : List (String × Yaml))

/-- The keys of a YAML mapping, in document order (empty for non-mappings). -/
def Yaml.keys : Yaml → List String
  | .map entries => entries.map (·.1)
  | _ => []

/-- Look up a key in a YAML mapping. -/
def Yaml.get? : Yaml → String → Option Yaml
  | .map entries, k => (entries.find? (fun e => e.1 = k)).map (·.2)
  | _, _ => none

/-- The elements of a YAML sequence (empty for non-sequences). -/
def Yaml.items : Yaml → List Yaml
  | .seq xs => xs
  | _ => []

/-- The string carried by a YAML string scalar. -/
def Yaml.asStr : Yaml → Option String
  | .s v => some v
  | _ => none

/-- Whether the value is a YAML sequence (an ordered list). -/
def Yaml.isSeq : Yaml → Bool
  | .seq _ => true
  | _ => false

/-- The mapping entries of a YAML mapping (empty for non-mappings). -/
def Yaml.entries : Yaml → List (String × Yaml)
  | .map es => es
  | _ => []

/-- The `query_pipeline` entry of `test_pipeline.yaml`, transcribed literally. -/
def query_pipeline : Yaml :=
  .map [("name", .s "query_pipeline"), ("type", .s "Query"),
        ("nodes", .seq [
          .map [("name", .s "ESRetriever"), ("inputs", .seq [.s "Query"])],
          .map [("name", .s "Reader"), ("inputs", .seq [.s "ESRetriever"])]])]

/-- The `indexing_pipeline` entry of `test_pipeline.yaml`, transcribed literally. -/
def indexing_pipeline : Yaml :=
  .map [("name", .s "indexing_pipeline"), ("type", .s "Indexing"),
        ("nodes", .seq [
          .map [("name", .s "PDFConverter"), ("inputs", .seq [.s "File"])],
          .map [("name", .s "Preprocessor"), ("inputs", .seq [.s "PDFConverter"])],
          .map [("name", .s "ESRetriever"), ("inputs", .seq [.s "Preprocessor"])],
          .map [("name", .s "DocumentStore"), ("inputs", .seq [.s "ESRetriever"])]])]

/-- Literal transcription of `test/samples/pipeline/test_pipeline.yaml`. -/
def test_pipeline_yaml : Yaml := .map [
  ("version", .s "0.7"),
  ("components", .seq [
    .map [("name", .s "Reader"), ("type", .s "FARMReader"),
          ("params", .map [("no_ans_boost", .i (-10)),
                           ("model_name_or_path", .s "deepset/roberta-base-squad2")])],
    .map [("name", .s "ESRetriever"), ("type", .s "ElasticsearchRetriever"),
          ("params", .map [("document_store", .s "DocumentStore"),
                           ("custom_query", .null)])],
    .map [("name", .s "DocumentStore"), ("type", .s "ElasticsearchDocumentStore"),
          ("params", .map [("index", .s "haystack_test"),
                           ("label_index", .s "haystack_test_label")])],
    .map [("name", .s "PDFConverter"), ("type", .s "PDFToTextConverter"),
          ("params", .map [("remove_numeric_tables", .b false)])],
    .map [("name", .s "Preprocessor"), ("type", .s "PreProcessor"),
          ("params", .map [("clean_whitespace", .b true)])]]),
  ("pipelines", .seq [query_pipeline, indexing_pipeline])]

/-- The `my_query_pipeline` entry of the YAML example embedded in the
Pipelines tutorial notebook, transcribed literally (it carries no `type`
key). -/
def my_query_pipeline : Yaml :=
  .map [("name", .s "my_query_pipeline"),
        ("nodes", .seq [
          .map [("name", .s "MyESRetriever"), ("inputs", .seq [.s "Query"])],
          .map [("name", .s "MyReader"), ("inputs", .seq [.s "MyESRetriever"])]])]

/-- Literal transcription of the YAML example embedded in the Pipelines
tutorial notebook. -/
def tutorial_yaml : Yaml := .map [
  ("version", .s "0.7"),
  ("components", .seq [
    .map [("name", .s "MyReader"), ("type", .s "FARMReader"),
          ("params", .map [("no_ans_boost", .i (-10)),
                           ("model_name_or_path", .s "deepset/roberta-base-squad2")])],
    .map [("name", .s "MyESRetriever"), ("type", .s "ElasticsearchRetriever"),
          ("params", .map [("document_store", .s "MyDocumentStore"),
                           ("custom_query", .null)])],
    .map [("name", .s "MyDocumentStore"), ("type", .s "ElasticsearchDocumentStore"),
          ("params", .map [("index", .s "haystack_test")])]]),
  ("pipelines", .seq [my_query_pipeline])]

/-- The component entries of a descriptor. -/
def componentsOf (d : Yaml) : List Yaml := (d.get? "components").elim [] Yaml.items

/-- The pipeline entries of a descriptor. -/
def pipelinesOf (d : Yaml) : List Yaml := (d.get? "pipelines").elim [] Yaml.items

/-- The `name` string of a component or node entry (empty if absent). -/
def nameOf (e : Yaml) : String := ((e.get? "name").bind Yaml.asStr).getD ""

/-- The node entries of a pipeline entry. -/
def nodesOf (p : Yaml) : List Yaml := (p.get? "nodes").elim [] Yaml.items

/-- The `inputs` strings of a node entry. -/
def inputsOf (nd : Yaml) : List String :=
  (((nd.get? "inputs").elim [] Yaml.items).map (fun v => (v.asStr).getD ""))

/-- The names of the components declared in a descriptor. -/
def componentNames (d : Yaml) : List String := (componentsOf d).map nameOf

/-- The names of the nodes of a pipeline entry. -/
def nodeNames (p : Yaml) : List String := (nodesOf p).map nameOf

/-- The `params` entries of a component entry. -/
def paramsOf (c : Yaml) : List (String × Yaml) := ((c.get? "params").elim [] Yaml.entries)

/-- Split a character list at the first dot, returning the part before it and,
when a dot occurs, the part after it. -/
def splitAtDot : List Char → (List Char × Option (List Char))
  | [] => ([], none)
  | c :: rest =>
      if c = '.' then ([], some rest)
      else
        let r := splitAtDot rest
        (c :: r.1, r.2)

/-- Parse a non-empty all-digit character list as a natural number. -/
def digitsToNat? (cs : List Char) : Option Nat :=
  if cs ≠ [] ∧ cs.all (fun c => c.isDigit) then
    some (cs.foldl (fun n c => 10 * n + (c.toNat - 48)) 0)
  else none

/-- Recognize an `output_k` edge tag after the dot of a qualified input. -/
def parseOutputEdge : List Char → Option Nat
  | 'o' :: 'u' :: 't' :: 'p' :: 'u' :: 't' :: '_' :: ds => digitsToNat? ds
  | _ => none

/-- Decompose a node input of the form `NodeName.output_k` into the referenced
node name and the edge number `k`; plain inputs yield `none`. -/
def parseEdgeInput (inp : String) : Option (String × Nat) :=
  match splitAtDot inp.toList with
  | (_, none) => none
  | (base, some rest) => (parseOutputEdge rest).map (fun k => (String.mk base, k))

/-- Keyword arguments of a Python call, as an association list. -/
abbrev Kwargs := List (String × String)

/-- Python dictionary access `kwargs[key]`: the first binding of the key. -/
def kwGet? (kwargs : Kwargs) (key : String) : Option String :=
  ((kwargs.find? (fun e => e.1 = key)).map (·.2))

namespace NodeTemplate

/-- The class attribute `outgoing_edges = 1` of `NodeTemplate`. -/
def outgoing_edges : Nat := 1

/-- `NodeTemplate.run`: returns the kwargs unchanged together with the edge
name `output_1`. -/
def run (kwargs : Kwargs) : Kwargs × String := (kwargs, "output_1")

end NodeTemplate

namespace QueryClassifier

/-- The class attribute `outgoing_edges = 2` of `QueryClassifier`. -/
def outgoing_edges : Nat := 2

/-- `QueryClassifier.run`: routes to `output_2` when the query contains a
question mark and to `output_1` otherwise.  The access `kwargs["query"]` is
unguarded, so a missing key raises a `KeyError` modelled as `Except.error`. -/
def run (kwargs : Kwargs) : Except String (Kwargs × String) :=
  match kwGet? kwargs "query" with
  | none => .error "KeyError: query"
  | some q =>
      if q.toList.contains '?' then .ok (kwargs, "output_2")
      else .ok (kwargs, "output_1")

end QueryClassifier

/-- The edge names a node with `n` outgoing edges may return:
`output_1`, ..., `output_n`. -/
def edgeNames (n : Nat) : List String :=
  (List.range n).map (fun k => "output_" ++ toString (k + 1))

/-- The `add_node` calls building the decision-node pipeline `p_classifier`
in the Pipelines tutorial: each call's `name` and `inputs` arguments. -/
def p_classifier_nodes : List (String × List String) :=
  [("QueryClassifier", ["Query"]),
   ("ESRetriever", ["QueryClassifier.output_1"]),
   ("DPRRetriever", ["QueryClassifier.output_2"]),
   ("QAReader", ["ESRetriever", "DPRRetriever"])]

/-- The edges of a pipeline entry: one edge from each name listed in a node's
`inputs` to that node. -/
def pipelineEdges (p : Yaml) : List (String × String) :=
  (nodesOf p).flatMap (fun nd => (inputsOf nd).map (fun i => (i, nameOf nd)))

/-- A nonempty directed path along the listed edges. -/
inductive PathIn (E : List (String × String)) : String → String → Prop
  | single (a b : String) : (a, b) ∈ E → PathIn E a b
  | cons (a b c : String) : (a, b) ∈ E → PathIn E b c → PathIn E a c

/-- A directed graph given by an edge list is acyclic when no vertex has a
nonempty path back to itself. -/
def Acyclic (E : List (String × String)) : Prop := ∀ v, ¬ PathIn E v v

/-- Along a rank function that strictly increases across each edge, every
path strictly increases the rank. -/
theorem PathIn.rank_lt {E : List (String × String)} (rank : String → Nat)
    (hE : ∀ e ∈ E, rank e.1 < rank e.2) :
    ∀ {a b : String}, PathIn E a b → rank a < rank b := by
  intro a b h
  induction h with
  | single a b hab => exact hE _ hab
  | cons a b c hab _ ih => exact Nat.lt_trans (hE _ hab) ih

/-- A graph admitting a rank function that strictly increases across each
edge is acyclic. -/
theorem acyclic_of_rank {E : List (String × String)} (rank : String → Nat)
    (hE : ∀ e ∈ E, rank e.1 < rank e.2) : Acyclic E := by
  intro v hv
  exact Nat.lt_irrefl _ (PathIn.rank_lt rank hE hv)

/-- The component-valued parameter references of a descriptor: every
`(component name, param key, referenced name)` triple whose param value is a
string equal to the name of a component declared in the same descriptor. -/
def componentRefs (d : Yaml) : List (String × String × String) :=
  (componentsOf d).flatMap (fun c =>
    (paramsOf c).filterMap (fun e =>
      match e.2.asStr with
      | some r => if r ∈ componentNames d then some (nameOf c, e.1, r) else none
      | none => none))

/-- The shape asserted of a descriptor's pipelines section: each entry is a
mapping with the keys `name`, `type` and `nodes`, and each of its nodes is a
mapping with the keys `name` and `inputs` where `inputs` is a list. -/
abbrev pipelinesShapeWithType (d : Yaml) : Prop :=
  ∀ p ∈ pipelinesOf d,
    "name" ∈ p.keys ∧ "type" ∈ p.keys ∧ "nodes" ∈ p.keys ∧
    ∀ nd ∈ nodesOf p,
      "name" ∈ nd.keys ∧ "inputs" ∈ nd.keys ∧
      ((nd.get? "inputs").elim Yaml.null id).isSeq = true

/-- C1: in the sample YAML descriptor, each pipeline's node graph (edges from
each name listed in a node's `inputs` to that node) is acyclic, and every
input name resolves to a component or node declared in the descriptor or to
one of the sentinel sources `Query` and `File`; this holds for both the
query_pipeline and the indexing_pipeline. -/
theorem C1_sample_pipelines_acyclic_inputs_resolve :
    ∀ p ∈ pipelinesOf test_pipeline_yaml,
      Acyclic (pipelineEdges p) ∧
      ∀ nd ∈ nodesOf p, ∀ i ∈ inputsOf nd,
        i ∈ componentNames test_pipeline_yaml ∨ i ∈ nodeNames p ∨
          i = "Query" ∨ i = "File" := by
  intro p hp
  have hps : pipelinesOf test_pipeline_yaml = [query_pipeline, indexing_pipeline] := rfl
  rw [hps] at hp
  simp only [List.mem_cons, List.not_mem_nil, or_false] at hp
  rcases hp with h | h <;> subst h
  · refine ⟨acyclic_of_rank
      (fun v => if v = "Query" then 0 else if v = "ESRetriever" then 1 else 2)
      (by decide), by decide⟩
  · refine ⟨acyclic_of_rank
      (fun v => if v = "File" then 0 else if v = "PDFConverter" then 1
                else if v = "Preprocessor" then 2
                else if v = "ESRetriever" then 3 else 4)
      (by decide), by decide⟩

/-- Witness for C1 at the concrete pipeline `query_pipeline`. -/
theorem C1_witness : Acyclic (pipelineEdges query_pipeline) :=
  (C1_sample_pipelines_acyclic_inputs_resolve query_pipeline
    (List.mem_cons_self query_pipeline [indexing_pipeline])).1

/-- C2 counterexample: it is not the case that every pipelines entry of every
descriptor in the repository carries the keys `name`, `type` and `nodes`: the
tutorial example's `my_query_pipeline` entry has no `type` key. -/
theorem C2_counterexample :
    ¬ (pipelinesShapeWithType test_pipeline_yaml ∧
       pipelinesShapeWithType tutorial_yaml) := by
  intro h
  have := (h.2 my_query_pipeline (List.mem_cons_self my_query_pipeline [])).2.1
  exact absurd this (by decide)

/-- C2 (amended): every pipelines entry of the sample config carries the keys
`name`, `type` and `nodes`, while the tutorial example's single entry carries
only `name` and `nodes`; in both descriptors every node is a mapping with the
keys `name` and `inputs`, and `inputs` is an ordered list. -/
theorem C2_amended_pipeline_entry_shape :
    pipelinesShapeWithType test_pipeline_yaml ∧
    (∀ p ∈ pipelinesOf tutorial_yaml,
      p.keys = ["name", "nodes"] ∧
      ∀ nd ∈ nodesOf p,
        nd.keys = ["name", "inputs"] ∧
        ((nd.get? "inputs").elim Yaml.null id).isSeq = true) := by
  constructor
  · decide
  · decide

/-- Witness for C2 (amended) at the concrete entry `my_query_pipeline`. -/
theorem C2_amended_witness : (Yaml.keys my_query_pipeline) = ["name", "nodes"] :=
  (C2_amended_pipeline_entry_shape.2 my_query_pipeline
    (List.mem_cons_self my_query_pipeline [])).1

/-- C3: every component entry of both descriptors carries exactly the keys
`name`, `type` and `params`: all five components of the sample config and all
three of the tutorial example. -/
theorem C3_component_entry_shape :
    (componentsOf test_pipeline_yaml).map Yaml.keys =
      [["name", "type", "params"], ["name", "type", "params"],
       ["name", "type", "params"], ["name", "type", "params"],
       ["name", "type", "params"]] ∧
    (componentsOf tutorial_yaml).map Yaml.keys =
      [["name", "type", "params"], ["name", "type", "params"],
       ["name", "type", "params"]] := by
  constructor <;> rfl

/-- C4: the only params values that name a declared component are
`document_store: DocumentStore` in the sample config's ESRetriever and
`document_store: MyDocumentStore` in the tutorial example's MyESRetriever,
and both resolve to components declared in the same descriptor; every other
params value is a literal. -/
theorem C4_component_param_refs :
    componentRefs test_pipeline_yaml =
      [("ESRetriever", "document_store", "DocumentStore")] ∧
    componentRefs tutorial_yaml =
      [("MyESRetriever", "document_store", "MyDocumentStore")] ∧
    "DocumentStore" ∈ componentNames test_pipeline_yaml ∧
    "MyDocumentStore" ∈ componentNames tutorial_yaml := by
  refine ⟨rfl, rfl, by decide, by decide⟩

/-- C5: in the tutorial's decision-node pipeline the suffix-qualified inputs
are exactly `QueryClassifier.output_1` and `QueryClassifier.output_2`, the
referenced `QueryClassifier` declares more than one outgoing edge and both
edge numbers stay within its `outgoing_edges = 2`; the sample config contains
no suffix-qualified input at all. -/
theorem C5_edge_suffixes_within_outgoing_edges :
    (p_classifier_nodes.flatMap (·.2)).filterMap parseEdgeInput =
      [("QueryClassifier", 1), ("QueryClassifier", 2)] ∧
    1 < QueryClassifier.outgoing_edges ∧
    2 ≤ QueryClassifier.outgoing_edges ∧
    ((pipelinesOf test_pipeline_yaml).flatMap
        (fun p => (nodesOf p).flatMap inputsOf)).filterMap parseEdgeInput
      = [] := by
  refine ⟨by decide, by decide, by decide, by decide⟩

/-- C6 counterexample: not every top-level key of the sample descriptor is
`components` or `pipelines`: the descriptor also carries the key `version`. -/
theorem C6_counterexample :
    ¬ (∀ k ∈ Yaml.keys test_pipeline_yaml,
        k = "components" ∨ k = "pipelines") := by
  decide

/-- C6 (amended): the sample descriptor's top-level keys are exactly
`version`, `components` and `pipelines`: besides the version field, its
shape consists of the two sections `components` and `pipelines`. -/
theorem C6_amended_top_level_keys :
    Yaml.keys test_pipeline_yaml = ["version", "components", "pipelines"] := by
  rfl

/-- C7: whenever kwargs binds the key `query`, `QueryClassifier.run` returns
the kwargs unchanged paired with `output_2` when the query contains the
character `?` and with `output_1` otherwise, and the returned edge name is
one of the class's declared `outgoing_edges = 2` edges. -/
theorem C7_query_classifier_routes (kwargs : Kwargs) (q : String)
    (h : kwGet? kwargs "query" = some q) :
    (q.toList.contains '?' = true →
      QueryClassifier.run kwargs = .ok (kwargs, "output_2")) ∧
    (q.toList.contains '?' = false →
      QueryClassifier.run kwargs = .ok (kwargs, "output_1")) ∧
    ∃ edge, QueryClassifier.run kwargs = .ok (kwargs, edge) ∧
      edge ∈ edgeNames QueryClassifier.outgoing_edges := by
  unfold QueryClassifier.run
  rw [h]
  refine ⟨fun hq => ?_, fun hq => ?_, ?_⟩
  · have hq2 : '?' ∈ q.data := by simpa using hq
    simp [hq2]
  · have hq2 : '?' ∉ q.data := by simpa using hq
    simp [hq2]
  · by_cases hq : '?' ∈ q.data
    · exact ⟨"output_2", by simp [hq], by decide⟩
    · exact ⟨"output_1", by simp [hq], by decide⟩

/-- Witness for C7 at the tutorial's concrete question query. -/
theorem C7_witness :
    QueryClassifier.run [("query", "Who is the father of Arya Stark?")] =
      .ok ([("query", "Who is the father of Arya Stark?")], "output_2") :=
  (C7_query_classifier_routes [("query", "Who is the father of Arya Stark?")]
    "Who is the father of Arya Stark?" (by decide)).1 (by decide)

/-- C8: neither function handles an error: `NodeTemplate.run` is a total pure
function and cannot fail, and `QueryClassifier.run`'s unguarded access to
`kwargs["query"]` turns a missing key into an error that propagates to the
caller instead of being handled. -/
theorem C8_errors_propagate :
    (∀ kwargs : Kwargs, kwGet? kwargs "query" = none →
      QueryClassifier.run kwargs = .error "KeyError: query") ∧
    (∀ kwargs : Kwargs, NodeTemplate.run kwargs = (kwargs, "output_1")) := by
  constructor
  · intro kwargs h
    unfold QueryClassifier.run
    rw [h]
  · intro kwargs
    rfl

/-- Witness for C8 at a kwargs mapping that lacks the key `query`. -/
theorem C8_witness :
    QueryClassifier.run [("top_k_retriever", "10")] = .error "KeyError: query" :=
  C8_errors_propagate.1 [("top_k_retriever", "10")] (by decide)

/-- C9: `NodeTemplate.run` returns exactly the pair `(kwargs, "output_1")`
for every kwargs mapping, and `output_1` is the single edge name allowed by
its declared `outgoing_edges = 1`. -/
theorem C9_node_template_run (kwargs : Kwargs) :
    NodeTemplate.run kwargs = (kwargs, "output_1") ∧
    "output_1" ∈ edgeNames NodeTemplate.outgoing_edges :=
  ⟨rfl, by decide⟩

/-- Witness for C9 at a concrete kwargs mapping. -/
theorem C9_witness :
    NodeTemplate.run [("query", "Arya Stark father")] =
      ([("query", "Arya Stark father")], "output_1") :=
  (C9_node_template_run [("query", "Arya Stark father")]).1

/-- C10: the sample descriptor's two pipelines contain six node occurrences
in total, and every node name is the name of one of the five components
declared in the same descriptor. -/
theorem C10_nodes_backed_by_components :
    ((pipelinesOf test_pipeline_yaml).flatMap nodeNames).length = 6 ∧
    componentNames test_pipeline_yaml =
      ["Reader", "ESRetriever", "DocumentStore", "PDFConverter", "Preprocessor"] ∧
    ∀ n ∈ (pipelinesOf test_pipeline_yaml).flatMap nodeNames,
      n ∈ componentNames test_pipeline_yaml := by
  refine ⟨rfl, rfl, by decide⟩

/-- Witness for C10 at the concrete node name `ESRetriever`. -/
theorem C10_witness : "ESRetriever" ∈ componentNames test_pipeline_yaml :=
  C10_nodes_backed_by_components.2.2 "ESRetriever" (by decide)
